import Mathlib

/-!
# MSM watchdog driver (`arch/arm/mach-msm/msm_watchdog.c`)

A shallow embedding of the driver: the module's globals are the fields of `State`,
every call that leaves the driver (register store, mapping request, log line, work
queue request) is appended to an event trace, and the three entry points
`init_watchdog`, `pet_watchdog` and `exit_watchdog` are functions over that state.
-/

namespace MsmWatchdog

/-! ## I/O pointers -/

/-- Where an I/O pointer points: nowhere (`NULL`), into the statically mapped timer
block, or into the window `ioremap_nocache` returned for a physical base address. -/
inductive Region
  | null
  | tmr0
  | remapped (phys : Nat)
  deriving DecidableEq, Repr

/-- A `void *` into I/O space: the mapping it was derived from and a byte offset. -/
structure IoPtr where
  region : Region
  off : Nat
  deriving DecidableEq, Repr

/-- Pointer arithmetic `p + n` on `void *` (byte granularity). -/
instance : HAdd IoPtr Nat IoPtr := ⟨fun p n => ⟨p.region, p.off + n⟩⟩

/-- The C null pointer. -/
def NULL : IoPtr := ⟨Region.null, 0⟩

/-- Modelled from the spec: `MSM_TMR0_BASE` (`mach/msm_iomap.h`, not among the sources)
is the virtual base of the statically mapped timer block, the "timer hardware base"
the register offsets are relative to. -/
def MSM_TMR0_BASE : IoPtr := ⟨Region.tmr0, 0⟩

/-- The base of the window a successful mapping request for `phys` returns. -/
def remapped (phys : Nat) : IoPtr := ⟨Region.remapped phys, 0⟩

/-! ## Constants of the driver (lines 31-45) -/

def TCSR_BASE : Nat := 0x16B00000
def TCSR_WDT_CFG : Nat := 0x30

def WDT0_RST : IoPtr := MSM_TMR0_BASE + 0x38
def WDT0_EN : IoPtr := MSM_TMR0_BASE + 0x40
def WDT0_BARK_TIME : IoPtr := MSM_TMR0_BASE + 0x4C
def WDT0_BITE_TIME : IoPtr := MSM_TMR0_BASE + 0x5C

/-- Watchdog pet interval in ms. -/
def PET_DELAY : Nat := 300

def DLOAD_MODE_ADDR : Nat := 0x2A03E008
def DLOAD_MAGIC_WRITE1 : Nat := 0xE47B337D
def DLOAD_MAGIC_WRITE2 : Nat := 0xCE14091A

/-- The size constant `SZ_4K` of the kernel headers. -/
def SZ_4K : Nat := 0x1000

/-- The errno value `ENOMEM` of the kernel headers. -/
def ENOMEM : Int := 12

/-- The log level string `KERN_INFO` of the kernel headers. -/
def KERN_INFO : String := "<6>"

/-- The value of `sizeof(unsigned int)` on the 32-bit ARM target. -/
def sizeof_unsigned_int : Nat := 4

/-- Rate of the watchdog counter in Hz, from the comment on line 67
("22000 ticks at 32768Hz = 671ms"). -/
def WDT_HZ : Nat := 32768

/-! ## Platform, events and state -/

/-- What the build and the surrounding kernel fix for one run of the driver. -/
structure Platform where
  /-- Whether the driver is compiled with `CONFIG_MSM_WATCHDOG_DEBUG`. -/
  CONFIG_MSM_WATCHDOG_DEBUG : Bool
  /-- Whether a mapping request for `(phys, size)` succeeds. -/
  can_map : Nat → Nat → Bool
  /-- The kernel's `msecs_to_jiffies` for the configured `HZ`. -/
  msecs_to_jiffies : Nat → Nat

/-- One call that leaves the driver, with its arguments (and, for a mapping request,
the pointer it returned). -/
inductive Event
  | printk (level : String) (msg : String)
  | ioremap_nocache (phys : Nat) (size : Nat) (ret : IoPtr)
  | iounmap (p : IoPtr)
  | writel (v : Nat) (addr : IoPtr)
  | INIT_DELAYED_WORK
  | schedule_delayed_work (delay : Nat)
  deriving DecidableEq, Repr

/-- The module's globals, the work queue entries of `dogwork_struct`, and the trace
of everything the driver has asked of the kernel and the hardware so far. -/
structure State where
  /-- The module parameter `enable` (an `int`, 1 by default). -/
  enable : Int
  /-- The global `delay_time`, in jiffies. -/
  delay_time : Nat
  /-- The global `tcsr_base`. -/
  tcsr_base : IoPtr
  /-- Delays of the queued, not yet fired executions of `dogwork_struct`. -/
  pending : List Nat
  trace : List Event
  deriving DecidableEq, Repr

/-- The state the module is loaded in: static storage is zero, nothing is queued,
nothing has happened; `enable` is whatever the command line made it. -/
def boot (enable : Int) : State :=
  { enable := enable, delay_time := 0, tcsr_base := NULL, pending := [], trace := [] }

/-- How a piece of driver code ends: it completes with a value, or the CPU takes a
fault (a kernel oops) at some instruction; either way with the state reached. -/
inductive Outcome (α : Type)
  | done (a : α) (s : State)
  | oops (s : State)
  deriving Repr

/-- The state an outcome ends in. -/
def Outcome.state {α : Type} : Outcome α → State
  | Outcome.done _ s => s
  | Outcome.oops s => s

/-- Driver code: a function of the state. -/
def K (α : Type) : Type := State → Outcome α

/-- Sequencing: the second statement runs only if the first one completed. -/
def K.bind {α β : Type} (m : K α) (f : α → K β) : K β := fun s =>
  match m s with
  | Outcome.done a s1 => f a s1
  | Outcome.oops s1 => Outcome.oops s1

instance : Monad K where
  pure a := fun s => Outcome.done a s
  bind := K.bind

/-- Append an event to the trace. -/
def emit (e : Event) : K Unit := fun s =>
  Outcome.done () { s with trace := s.trace ++ [e] }

/-! ## Kernel services the driver calls -/

/-- Modelled from the spec: `writel` (`asm/io.h`, not among the sources) performs a
single uncached register write that completes before the caller proceeds. A store
through a pointer derived from `NULL` reaches no register: the CPU faults. -/
def writel (v : Nat) (addr : IoPtr) : K Unit := fun s =>
  if addr.region = Region.null then Outcome.oops s
  else emit (Event.writel v addr) s

/-- Modelled from the spec: `ioremap_nocache` (not among the sources) establishes an
uncached mapping over the register window and returns its base, or `NULL` if the
address range cannot be mapped. -/
def ioremap_nocache (plat : Platform) (phys size : Nat) : K IoPtr := fun s =>
  let ret : IoPtr := if plat.can_map phys size then remapped phys else NULL
  Outcome.done ret { s with trace := s.trace ++ [Event.ioremap_nocache phys size ret] }

/-- Modelled from the spec: `iounmap` (not among the sources) releases a mapping. -/
def iounmap (p : IoPtr) : K Unit := emit (Event.iounmap p)

/-- The kernel log. -/
def printk (level msg : String) : K Unit := emit (Event.printk level msg)

/-- Modelled from the spec: `INIT_DELAYED_WORK` (`linux/workqueue.h`, not among the
sources) binds the work item to its callback; it queues nothing. -/
def INIT_DELAYED_WORK : K Unit := emit Event.INIT_DELAYED_WORK

/-- Modelled from the spec: `schedule_delayed_work` (`linux/workqueue.h`, not among
the sources) schedules one future execution of the work item after `delay`. The queue
is kept as a list, so that "exactly one tick pending" is a statement about its length
and not a property of the type. -/
def schedule_delayed_work (delay : Nat) : K Unit := fun s =>
  Outcome.done () { s with pending := s.pending ++ [delay],
                           trace := s.trace ++ [Event.schedule_delayed_work delay] }

/-- Read the global `enable`. -/
def get_enable : K Int := fun s => Outcome.done s.enable s

/-- Read the global `delay_time`. -/
def get_delay_time : K Nat := fun s => Outcome.done s.delay_time s

/-- Assign the global `delay_time`. -/
def set_delay_time (d : Nat) : K Unit := fun s => Outcome.done () { s with delay_time := d }

/-- Read the global `tcsr_base`. -/
def get_tcsr_base : K IoPtr := fun s => Outcome.done s.tcsr_base s

/-- Assign the global `tcsr_base`. -/
def set_tcsr_base (p : IoPtr) : K Unit := fun s => Outcome.done () { s with tcsr_base := p }

/-! ## The driver (lines 59-108) -/

/-- Lines 59-63. -/
def pet_watchdog : K Unit := do
  writel 1 WDT0_RST
  schedule_delayed_work (← get_delay_time)

/-- Lines 65-74. -/
def start_watchdog_timer : K Unit := do
  writel 22000 WDT0_BARK_TIME
  writel 22000 WDT0_BITE_TIME
  writel 3 WDT0_EN
  INIT_DELAYED_WORK
  schedule_delayed_work (← get_delay_time)

/-- Lines 76-80. -/
def exit_watchdog : K Unit := do
  writel 0 WDT0_EN
  printk KERN_INFO ("MSM Watchdog Exit - Deactivated\n")

/-- Lines 87-95, the block compiled under `CONFIG_MSM_WATCHDOG_DEBUG`. -/
def init_watchdog_debug (plat : Platform) : K Unit := do
  let dload_mode_addr ← ioremap_nocache plat DLOAD_MODE_ADDR SZ_4K
  writel DLOAD_MAGIC_WRITE1 dload_mode_addr
  writel DLOAD_MAGIC_WRITE2 (dload_mode_addr + sizeof_unsigned_int)
  iounmap dload_mode_addr
  printk KERN_INFO ("MSM_WATCHDOG_DEBUG enabled\n")

/-- Lines 82-108. The result is the `int` the function returns. -/
def init_watchdog (plat : Platform) : K Int := do
  if (← get_enable) ≠ 0 then
    printk KERN_INFO ("MSM Watchdog Initialized\n")
    if plat.CONFIG_MSM_WATCHDOG_DEBUG then
      init_watchdog_debug plat
    set_tcsr_base (← ioremap_nocache plat TCSR_BASE SZ_4K)
    if (← get_tcsr_base) = NULL then
      return -ENOMEM
    writel 3 ((← get_tcsr_base) + TCSR_WDT_CFG)
    set_delay_time (plat.msecs_to_jiffies PET_DELAY)
    start_watchdog_timer
  else
    printk KERN_INFO ("MSM Watchdog Not Initialized\n")
  return 0

/-! ## The work queue firing the tick -/

/-- Modelled from the spec: the work queue (not among the sources) invokes the tick on
each interval expiry, one at a time: the oldest queued execution of `dogwork_struct`
leaves the queue and the callback `pet_watchdog` runs. `none` when nothing is queued. -/
def tick (s : State) : Option (Outcome Unit) :=
  match s.pending with
  | [] => none
  | _ :: rest => some (pet_watchdog { s with pending := rest })

/-- Run `n` ticks in a row; `none` if a tick had nothing to run or faulted. -/
def ticks : Nat → State → Option State
  | 0, s => some s
  | n + 1, s =>
    match tick s with
    | some (Outcome.done _ s1) => ticks n s1
    | _ => none

/-! ## Reading a trace -/

/-- The register writes of a trace, in order, as (value, address). -/
def writes : List Event → List (Nat × IoPtr)
  | [] => []
  | Event.writel v a :: t => (v, a) :: writes t
  | _ :: t => writes t

/-- The mapping requests of a trace, in order, as (physical base, size). -/
def map_requests : List Event → List (Nat × Nat)
  | [] => []
  | Event.ioremap_nocache p n _ :: t => (p, n) :: map_requests t
  | _ :: t => map_requests t

/-- The delays of the work queue requests of a trace, in order. -/
def scheduled : List Event → List Nat
  | [] => []
  | Event.schedule_delayed_work d :: t => d :: scheduled t
  | _ :: t => scheduled t

/-- What happened between state `s` and a later state `s1`: the events appended. -/
def emitted (s s1 : State) : List Event := s1.trace.drop s.trace.length

/-- The writes of a trace that go to the watchdog timer block, in order. -/
def wdt_writes (t : List Event) : List (Nat × IoPtr) :=
  (writes t).filter (fun w => w.2.region = Region.tmr0)

/-- The values a trace writes to address `a`, in order. -/
def written_to (a : IoPtr) (t : List Event) : List Nat :=
  ((writes t).filter (fun w => w.2 = a)).map Prod.fst

/-- The value a trace leaves programmed at address `a`: the last one written there. -/
def last_written (a : IoPtr) (t : List Event) : Option Nat :=
  (written_to a t).getLast?

/-- The events of `n` consecutive ticks that each reschedule with delay `d`. -/
def tick_events (d : Nat) : Nat → List Event
  | 0 => []
  | n + 1 => Event.writel 1 WDT0_RST :: Event.schedule_delayed_work d :: tick_events d n

/-! ## Concrete platforms used to evaluate the driver -/

/-- A platform with `HZ = 100`, given its build option and which mappings succeed. -/
def hz100 (debug : Bool) (can_map : Nat → Nat → Bool) : Platform :=
  { CONFIG_MSM_WATCHDOG_DEBUG := debug, can_map := can_map,
    msecs_to_jiffies := fun m => (m * 100 + 999) / 1000 }

/-- A build without the debug option on which every mapping request succeeds. -/
def plain_board : Platform := hz100 false (fun _ _ => true)

/-- A debug build on which every mapping request succeeds. -/
def debug_board : Platform := hz100 true (fun _ _ => true)

/-- A debug build on which only the TCSR block cannot be mapped. -/
def debug_board_no_tcsr : Platform := hz100 true (fun phys _ => phys != TCSR_BASE)

/-- A debug build on which only the diagnostics region cannot be mapped. -/
def debug_board_no_dload : Platform := hz100 true (fun phys _ => phys != DLOAD_MODE_ADDR)

/-! ## What each entry point does, path by path -/

theorem IoPtr.add_def (p : IoPtr) (n : Nat) : p + n = ⟨p.region, p.off + n⟩ := rfl

theorem emitted_of_trace {s s1 : State} {e : List Event} (h : s1.trace = s.trace ++ e) :
    emitted s s1 = e := by
  simp [emitted, h]

theorem writes_append (t u : List Event) : writes (t ++ u) = writes t ++ writes u := by
  induction t with
  | nil => simp [writes]
  | cons e t ih => cases e <;> simp [writes, ih]

theorem written_to_append (a : IoPtr) (t u : List Event) :
    written_to a (t ++ u) = written_to a t ++ written_to a u := by
  simp [written_to, writes_append]

theorem start_watchdog_timer_eq (s : State) :
    start_watchdog_timer s = Outcome.done ()
      { s with
        pending := s.pending ++ [s.delay_time],
        trace := s.trace ++ [Event.writel 22000 WDT0_BARK_TIME, Event.writel 22000 WDT0_BITE_TIME,
          Event.writel 3 WDT0_EN, Event.INIT_DELAYED_WORK,
          Event.schedule_delayed_work s.delay_time] } := by
  simp [start_watchdog_timer, bind, K.bind, writel, emit, INIT_DELAYED_WORK,
    schedule_delayed_work, get_delay_time, WDT0_BARK_TIME, WDT0_BITE_TIME, WDT0_EN,
    MSM_TMR0_BASE, IoPtr.add_def]

theorem pet_watchdog_eq (s : State) :
    pet_watchdog s = Outcome.done ()
      { s with
        pending := s.pending ++ [s.delay_time],
        trace := s.trace ++ [Event.writel 1 WDT0_RST, Event.schedule_delayed_work s.delay_time] } := by
  simp [pet_watchdog, bind, K.bind, writel, emit, schedule_delayed_work, get_delay_time,
    WDT0_RST, MSM_TMR0_BASE, IoPtr.add_def]

theorem exit_watchdog_eq (s : State) :
    exit_watchdog s = Outcome.done ()
      { s with
        trace := s.trace ++ [Event.writel 0 WDT0_EN,
          Event.printk KERN_INFO ("MSM Watchdog Exit - Deactivated\n")] } := by
  simp [exit_watchdog, bind, K.bind, writel, emit, printk, WDT0_EN, MSM_TMR0_BASE,
    IoPtr.add_def]

/-- With `enable` zero, `init_watchdog` logs one line and returns 0. -/
theorem init_watchdog_disabled (plat : Platform) (s : State) (h : s.enable = 0) :
    init_watchdog plat s = Outcome.done 0
      { s with trace := s.trace ++ [Event.printk KERN_INFO ("MSM Watchdog Not Initialized\n")] } := by
  simp [init_watchdog, bind, K.bind, get_enable, h, printk, emit, pure]

/-- With `enable` non-zero and every requested mapping granted, `init_watchdog` reaches
line 102 and ends as `start_watchdog_timer` does, returning 0. -/
theorem init_watchdog_reaches_start (plat : Platform) (s : State) (he : s.enable ≠ 0)
    (hm : plat.can_map TCSR_BASE SZ_4K = true)
    (hl : plat.CONFIG_MSM_WATCHDOG_DEBUG = true → plat.can_map DLOAD_MODE_ADDR SZ_4K = true) :
    init_watchdog plat s =
      K.bind start_watchdog_timer (fun _ => pure 0)
        { s with
          delay_time := plat.msecs_to_jiffies PET_DELAY,
          tcsr_base := remapped TCSR_BASE,
          trace := s.trace ++ (Event.printk KERN_INFO ("MSM Watchdog Initialized\n") ::
            (if plat.CONFIG_MSM_WATCHDOG_DEBUG then
              [Event.ioremap_nocache DLOAD_MODE_ADDR SZ_4K (remapped DLOAD_MODE_ADDR),
               Event.writel DLOAD_MAGIC_WRITE1 (remapped DLOAD_MODE_ADDR),
               Event.writel DLOAD_MAGIC_WRITE2 (remapped DLOAD_MODE_ADDR + sizeof_unsigned_int),
               Event.iounmap (remapped DLOAD_MODE_ADDR),
               Event.printk KERN_INFO ("MSM_WATCHDOG_DEBUG enabled\n")]
             else []) ++
            [Event.ioremap_nocache TCSR_BASE SZ_4K (remapped TCSR_BASE),
             Event.writel 3 (remapped TCSR_BASE + TCSR_WDT_CFG)]) } := by
  cases hd : plat.CONFIG_MSM_WATCHDOG_DEBUG
  · simp [init_watchdog, bind, K.bind, get_enable, he, hd, hm, printk, emit, pure,
      ioremap_nocache, set_tcsr_base, get_tcsr_base, NULL, remapped, writel, IoPtr.add_def,
      set_delay_time]
  · have hl1 := hl hd
    simp [init_watchdog, init_watchdog_debug, bind, K.bind, get_enable, he, hd, hl1, hm,
      printk, emit, pure, iounmap, ioremap_nocache, set_tcsr_base, get_tcsr_base, NULL,
      remapped, writel, IoPtr.add_def, set_delay_time]

/-- With `enable` non-zero and every requested mapping granted: the state and the
result `init_watchdog` ends with. -/
theorem init_watchdog_ok (plat : Platform) (s : State) (he : s.enable ≠ 0)
    (hm : plat.can_map TCSR_BASE SZ_4K = true)
    (hl : plat.CONFIG_MSM_WATCHDOG_DEBUG = true → plat.can_map DLOAD_MODE_ADDR SZ_4K = true) :
    init_watchdog plat s = Outcome.done 0
      { s with
        delay_time := plat.msecs_to_jiffies PET_DELAY,
        tcsr_base := remapped TCSR_BASE,
        pending := s.pending ++ [plat.msecs_to_jiffies PET_DELAY],
        trace := s.trace ++ (Event.printk KERN_INFO ("MSM Watchdog Initialized\n") ::
          (if plat.CONFIG_MSM_WATCHDOG_DEBUG then
            [Event.ioremap_nocache DLOAD_MODE_ADDR SZ_4K (remapped DLOAD_MODE_ADDR),
             Event.writel DLOAD_MAGIC_WRITE1 (remapped DLOAD_MODE_ADDR),
             Event.writel DLOAD_MAGIC_WRITE2 (remapped DLOAD_MODE_ADDR + sizeof_unsigned_int),
             Event.iounmap (remapped DLOAD_MODE_ADDR),
             Event.printk KERN_INFO ("MSM_WATCHDOG_DEBUG enabled\n")]
           else []) ++
          [Event.ioremap_nocache TCSR_BASE SZ_4K (remapped TCSR_BASE),
           Event.writel 3 (remapped TCSR_BASE + TCSR_WDT_CFG),
           Event.writel 22000 WDT0_BARK_TIME, Event.writel 22000 WDT0_BITE_TIME,
           Event.writel 3 WDT0_EN, Event.INIT_DELAYED_WORK,
           Event.schedule_delayed_work (plat.msecs_to_jiffies PET_DELAY)]) } := by
  rw [init_watchdog_reaches_start plat s he hm hl]
  simp [K.bind, start_watchdog_timer_eq, pure]

/-- With `enable` non-zero, the diagnostics step (if compiled in) completed and the
TCSR mapping refused: `init_watchdog` stops at line 99. -/
theorem init_watchdog_enomem (plat : Platform) (s : State) (he : s.enable ≠ 0)
    (hm : plat.can_map TCSR_BASE SZ_4K = false)
    (hl : plat.CONFIG_MSM_WATCHDOG_DEBUG = true → plat.can_map DLOAD_MODE_ADDR SZ_4K = true) :
    init_watchdog plat s = Outcome.done (-ENOMEM)
      { s with
        tcsr_base := NULL,
        trace := s.trace ++ (Event.printk KERN_INFO ("MSM Watchdog Initialized\n") ::
          (if plat.CONFIG_MSM_WATCHDOG_DEBUG then
            [Event.ioremap_nocache DLOAD_MODE_ADDR SZ_4K (remapped DLOAD_MODE_ADDR),
             Event.writel DLOAD_MAGIC_WRITE1 (remapped DLOAD_MODE_ADDR),
             Event.writel DLOAD_MAGIC_WRITE2 (remapped DLOAD_MODE_ADDR + sizeof_unsigned_int),
             Event.iounmap (remapped DLOAD_MODE_ADDR),
             Event.printk KERN_INFO ("MSM_WATCHDOG_DEBUG enabled\n")]
           else []) ++
          [Event.ioremap_nocache TCSR_BASE SZ_4K NULL]) } := by
  cases hd : plat.CONFIG_MSM_WATCHDOG_DEBUG
  · simp [init_watchdog, bind, K.bind, get_enable, he, hd, hm, printk, emit, pure,
      ioremap_nocache, set_tcsr_base, get_tcsr_base, NULL]
  · have hl1 := hl hd
    simp [init_watchdog, init_watchdog_debug, bind, K.bind, get_enable, he, hd, hl1, hm,
      printk, emit, pure, iounmap, ioremap_nocache, set_tcsr_base, get_tcsr_base, NULL,
      remapped, writel, IoPtr.add_def]

/-- With `enable` non-zero, the diagnostics step compiled in and its mapping refused:
`init_watchdog` faults at line 90, on the store through the unchecked `NULL`. -/
theorem init_watchdog_debug_oops (plat : Platform) (s : State) (he : s.enable ≠ 0)
    (hd : plat.CONFIG_MSM_WATCHDOG_DEBUG = true)
    (hl : plat.can_map DLOAD_MODE_ADDR SZ_4K = false) :
    init_watchdog plat s = Outcome.oops
      { s with
        trace := s.trace ++ [Event.printk KERN_INFO ("MSM Watchdog Initialized\n"),
          Event.ioremap_nocache DLOAD_MODE_ADDR SZ_4K NULL] } := by
  simp [init_watchdog, init_watchdog_debug, bind, K.bind, get_enable, he, hd, hl, printk,
    emit, pure, ioremap_nocache, NULL, writel]

theorem last_written_append {a : IoPtr} {t u : List Event} {l : List Nat} {v : Nat}
    (h : written_to a u = l ++ [v]) : last_written a (t ++ u) = some v := by
  rw [last_written, written_to_append, h, ← List.append_assoc, List.getLast?_concat]

theorem last_written_append_nil {a : IoPtr} {t u : List Event}
    (h : written_to a u = []) : last_written a (t ++ u) = last_written a t := by
  rw [last_written, written_to_append, h, List.append_nil, last_written]

/-! ## The tick, repeated -/

theorem writes_tick_events (d n : Nat) :
    writes (tick_events d n) = List.replicate n (1, WDT0_RST) := by
  induction n with
  | zero => simp [tick_events, writes]
  | succ n ih => simp [tick_events, writes, ih, List.replicate_succ]

theorem scheduled_tick_events (d n : Nat) :
    scheduled (tick_events d n) = List.replicate n d := by
  induction n with
  | zero => simp [tick_events, scheduled]
  | succ n ih => simp [tick_events, scheduled, ih, List.replicate_succ]

theorem tick_armed (s : State) (h : s.pending = [s.delay_time]) :
    tick s = some (Outcome.done ()
      { s with trace := s.trace ++
          [Event.writel 1 WDT0_RST, Event.schedule_delayed_work s.delay_time] }) := by
  cases s with
  | mk en dt tb pend tr =>
    simp only at h
    subst h
    simp [tick, pet_watchdog_eq]

theorem ticks_armed (n : Nat) (s : State) (h : s.pending = [s.delay_time]) :
    ticks n s = some { s with trace := s.trace ++ tick_events s.delay_time n } := by
  induction n generalizing s with
  | zero => simp [ticks, tick_events]
  | succ n ih =>
    rw [ticks, tick_armed s h]
    simp only
    rw [ih { s with trace := s.trace ++
      [Event.writel 1 WDT0_RST, Event.schedule_delayed_work s.delay_time] } h]
    simp [tick_events]


/-! ## Reading the path taken off the outcome -/

/-- If `init_watchdog` returns 0 with `enable` non-zero, every mapping it requested was
granted. -/
theorem init_watchdog_zero_inv {plat : Platform} {s s1 : State} (he : s.enable ≠ 0)
    (h0 : init_watchdog plat s = Outcome.done 0 s1) :
    plat.can_map TCSR_BASE SZ_4K = true ∧
    (plat.CONFIG_MSM_WATCHDOG_DEBUG = true → plat.can_map DLOAD_MODE_ADDR SZ_4K = true) := by
  by_cases hl : plat.CONFIG_MSM_WATCHDOG_DEBUG = true → plat.can_map DLOAD_MODE_ADDR SZ_4K = true
  · cases hm : plat.can_map TCSR_BASE SZ_4K
    · rw [init_watchdog_enomem plat s he hm hl] at h0
      injection h0 with h1 _
      simp [ENOMEM] at h1
    · exact ⟨rfl, hl⟩
  · push_neg at hl
    rw [init_watchdog_debug_oops plat s he hl.1 (by simpa using hl.2)] at h0
    cases h0

/-- If the mapping request for the TCSR block is among the events of `init_watchdog`
and returned `NULL`, that mapping was refused and the diagnostics step, if compiled
in, had completed. -/
theorem init_watchdog_refused_inv {plat : Platform} {s : State} (he : s.enable ≠ 0)
    (hc : Event.ioremap_nocache TCSR_BASE SZ_4K NULL ∈
      emitted s (init_watchdog plat s).state) :
    plat.can_map TCSR_BASE SZ_4K = false ∧
    (plat.CONFIG_MSM_WATCHDOG_DEBUG = true → plat.can_map DLOAD_MODE_ADDR SZ_4K = true) := by
  by_cases hl : plat.CONFIG_MSM_WATCHDOG_DEBUG = true → plat.can_map DLOAD_MODE_ADDR SZ_4K = true
  · cases hm : plat.can_map TCSR_BASE SZ_4K
    · exact ⟨rfl, hl⟩
    · rw [init_watchdog_ok plat s he hm hl, Outcome.state, emitted_of_trace rfl] at hc
      cases hd : plat.CONFIG_MSM_WATCHDOG_DEBUG <;>
        simp [hd, remapped, NULL, TCSR_BASE, DLOAD_MODE_ADDR] at hc
  · push_neg at hl
    rw [init_watchdog_debug_oops plat s he hl.1 (by simpa using hl.2), Outcome.state,
      emitted_of_trace rfl] at hc
    simp [TCSR_BASE, DLOAD_MODE_ADDR] at hc

/-- If the mapping request for the TCSR block is among the events of `init_watchdog`
and returned a mapping, every mapping `init_watchdog` requested was granted. -/
theorem init_watchdog_mapped_inv {plat : Platform} {s : State} (he : s.enable ≠ 0)
    (hc : Event.ioremap_nocache TCSR_BASE SZ_4K (remapped TCSR_BASE) ∈
      emitted s (init_watchdog plat s).state) :
    plat.can_map TCSR_BASE SZ_4K = true ∧
    (plat.CONFIG_MSM_WATCHDOG_DEBUG = true → plat.can_map DLOAD_MODE_ADDR SZ_4K = true) := by
  by_cases hl : plat.CONFIG_MSM_WATCHDOG_DEBUG = true → plat.can_map DLOAD_MODE_ADDR SZ_4K = true
  · cases hm : plat.can_map TCSR_BASE SZ_4K
    · rw [init_watchdog_enomem plat s he hm hl, Outcome.state, emitted_of_trace rfl] at hc
      cases hd : plat.CONFIG_MSM_WATCHDOG_DEBUG <;>
        simp [hd, remapped, NULL, TCSR_BASE, DLOAD_MODE_ADDR] at hc
    · exact ⟨rfl, hl⟩
  · push_neg at hl
    rw [init_watchdog_debug_oops plat s he hl.1 (by simpa using hl.2), Outcome.state,
      emitted_of_trace rfl] at hc
    simp [TCSR_BASE, DLOAD_MODE_ADDR] at hc

/-! ## Startup -/

/-- C1: when `init_watchdog` runs with `enable` non-zero and the mapping request for
the register block (line 97) is made and returns a mapping, `init_watchdog` returns 0
and ends with `start_watchdog_timer`, whose events are exactly
22000 to bark (timer base + 0x4C), 22000 to bite (+ 0x5C), 3 to enable (+ 0x40), the
work item initialisation and one work queue request. These three are all the writes of
the whole startup that go to the timer block, no write of any value goes to the reset
strobe (+ 0x38), and exactly one tick is scheduled, with delay `delay_time`. -/
theorem startup_programs_bark_bite_enable_in_order (plat : Platform) (s : State)
    (he : s.enable ≠ 0)
    (hc : Event.ioremap_nocache TCSR_BASE SZ_4K (remapped TCSR_BASE) ∈
      emitted s (init_watchdog plat s).state) :
    ∃ s1 s2 : State,
      init_watchdog plat s = Outcome.done 0 s2 ∧
      start_watchdog_timer s1 = Outcome.done () s2 ∧
      emitted s s2 = emitted s s1 ++ emitted s1 s2 ∧
      emitted s1 s2 =
        [Event.writel 22000 (MSM_TMR0_BASE + 0x4C), Event.writel 22000 (MSM_TMR0_BASE + 0x5C),
         Event.writel 3 (MSM_TMR0_BASE + 0x40), Event.INIT_DELAYED_WORK,
         Event.schedule_delayed_work s2.delay_time] ∧
      wdt_writes (emitted s s2) =
        [(22000, MSM_TMR0_BASE + 0x4C), (22000, MSM_TMR0_BASE + 0x5C),
         (3, MSM_TMR0_BASE + 0x40)] ∧
      (∀ v, Event.writel v (MSM_TMR0_BASE + 0x38) ∉ emitted s s2) ∧
      scheduled (emitted s s2) = [s2.delay_time] ∧
      s2.pending = s.pending ++ [s2.delay_time] := by
  obtain ⟨hm, hl⟩ := init_watchdog_mapped_inv he hc
  refine ⟨{ s with
      delay_time := plat.msecs_to_jiffies PET_DELAY,
      tcsr_base := remapped TCSR_BASE,
      trace := s.trace ++ (Event.printk KERN_INFO ("MSM Watchdog Initialized\n") ::
        (if plat.CONFIG_MSM_WATCHDOG_DEBUG then
          [Event.ioremap_nocache DLOAD_MODE_ADDR SZ_4K (remapped DLOAD_MODE_ADDR),
           Event.writel DLOAD_MAGIC_WRITE1 (remapped DLOAD_MODE_ADDR),
           Event.writel DLOAD_MAGIC_WRITE2 (remapped DLOAD_MODE_ADDR + sizeof_unsigned_int),
           Event.iounmap (remapped DLOAD_MODE_ADDR),
           Event.printk KERN_INFO ("MSM_WATCHDOG_DEBUG enabled\n")]
         else []) ++
        [Event.ioremap_nocache TCSR_BASE SZ_4K (remapped TCSR_BASE),
         Event.writel 3 (remapped TCSR_BASE + TCSR_WDT_CFG)]) }, _,
    init_watchdog_ok plat s he hm hl, ?_, ?_⟩
  · rw [start_watchdog_timer_eq]; simp
  · rw [emitted_of_trace (s := s) rfl, emitted_of_trace (s := s) rfl]
    rw [emitted_of_trace (e := [Event.writel 22000 WDT0_BARK_TIME,
      Event.writel 22000 WDT0_BITE_TIME, Event.writel 3 WDT0_EN, Event.INIT_DELAYED_WORK,
      Event.schedule_delayed_work (plat.msecs_to_jiffies PET_DELAY)]) (by simp)]
    cases plat.CONFIG_MSM_WATCHDOG_DEBUG <;>
      simp [wdt_writes, writes, scheduled, WDT0_BARK_TIME, WDT0_BITE_TIME, WDT0_EN,
        MSM_TMR0_BASE, remapped, IoPtr.add_def]

/-- C1 at the debug build with every mapping granted, booted with `enable = 1`. -/
theorem startup_programs_bark_bite_enable_in_order_witness :
    (boot 1).enable ≠ 0 ∧
    Event.ioremap_nocache TCSR_BASE SZ_4K (remapped TCSR_BASE) ∈
      emitted (boot 1) (init_watchdog debug_board (boot 1)).state ∧
    ∃ s1 s2 : State,
      init_watchdog debug_board (boot 1) = Outcome.done 0 s2 ∧
      start_watchdog_timer s1 = Outcome.done () s2 ∧
      emitted (boot 1) s2 = emitted (boot 1) s1 ++ emitted s1 s2 ∧
      emitted s1 s2 =
        [Event.writel 22000 (MSM_TMR0_BASE + 0x4C), Event.writel 22000 (MSM_TMR0_BASE + 0x5C),
         Event.writel 3 (MSM_TMR0_BASE + 0x40), Event.INIT_DELAYED_WORK,
         Event.schedule_delayed_work s2.delay_time] ∧
      wdt_writes (emitted (boot 1) s2) =
        [(22000, MSM_TMR0_BASE + 0x4C), (22000, MSM_TMR0_BASE + 0x5C),
         (3, MSM_TMR0_BASE + 0x40)] ∧
      (∀ v, Event.writel v (MSM_TMR0_BASE + 0x38) ∉ emitted (boot 1) s2) ∧
      scheduled (emitted (boot 1) s2) = [s2.delay_time] ∧
      s2.pending = (boot 1).pending ++ [s2.delay_time] :=
  ⟨by decide, by decide,
    startup_programs_bark_bite_enable_in_order debug_board (boot 1) (by decide) (by decide)⟩

/-- C10: with `enable` non-zero and the mapping requests granted, the complete ordered
list of register writes of `init_watchdog` is: in a debug build 0xE47B337D to the base
of the window mapped for 0x2A03E008 and 0xCE14091A to that base + 4; then, in either
build, 3 to offset 0x30 of the window mapped for 0x16B00000, 22000 to bark, 22000 to
bite, 3 to enable. The mapping requests are (0x2A03E008, 4 KiB) in a debug build and
then (0x16B00000, 4 KiB); refusing exactly the latter makes `init_watchdog` return
`-ENOMEM`; and the two physical ranges have no address in common. -/
theorem init_complete_write_trace (plat : Platform) (s : State)
    (he : s.enable ≠ 0) (hm : plat.can_map TCSR_BASE SZ_4K = true)
    (hl : plat.CONFIG_MSM_WATCHDOG_DEBUG = true → plat.can_map DLOAD_MODE_ADDR SZ_4K = true) :
    (∃ s1 : State,
      init_watchdog plat s = Outcome.done 0 s1 ∧
      writes (emitted s s1) =
        (if plat.CONFIG_MSM_WATCHDOG_DEBUG then
          [(0xE47B337D, remapped 0x2A03E008), (0xCE14091A, remapped 0x2A03E008 + 4)]
         else []) ++
        [(3, remapped 0x16B00000 + 0x30), (22000, MSM_TMR0_BASE + 0x4C),
         (22000, MSM_TMR0_BASE + 0x5C), (3, MSM_TMR0_BASE + 0x40)] ∧
      map_requests (emitted s s1) =
        (if plat.CONFIG_MSM_WATCHDOG_DEBUG then [(0x2A03E008, 0x1000)] else []) ++
        [(0x16B00000, 0x1000)] ∧
      s1.tcsr_base = remapped 0x16B00000) ∧
    (∃ s2 : State,
      init_watchdog
        { plat with can_map := fun phys size => phys != 0x16B00000 && plat.can_map phys size } s =
        Outcome.done (-ENOMEM) s2) ∧
    (∀ a : Nat, ¬ (TCSR_BASE ≤ a ∧ a < TCSR_BASE + SZ_4K ∧
      DLOAD_MODE_ADDR ≤ a ∧ a < DLOAD_MODE_ADDR + SZ_4K)) := by
  refine ⟨⟨_, init_watchdog_ok plat s he hm hl, ?_, ?_, rfl⟩,
    ⟨_, init_watchdog_enomem _ s he ?_ ?_⟩, ?_⟩
  · rw [emitted_of_trace rfl]
    cases plat.CONFIG_MSM_WATCHDOG_DEBUG <;>
      simp [writes, WDT0_BARK_TIME, WDT0_BITE_TIME, WDT0_EN, MSM_TMR0_BASE, remapped,
        IoPtr.add_def, sizeof_unsigned_int, DLOAD_MAGIC_WRITE1, DLOAD_MAGIC_WRITE2,
        DLOAD_MODE_ADDR, TCSR_BASE, TCSR_WDT_CFG]
  · rw [emitted_of_trace rfl]
    cases plat.CONFIG_MSM_WATCHDOG_DEBUG <;>
      simp [map_requests, DLOAD_MODE_ADDR, TCSR_BASE, SZ_4K]
  · simp [TCSR_BASE]
  · intro hd
    have h1 : plat.can_map DLOAD_MODE_ADDR SZ_4K = true := hl hd
    show (DLOAD_MODE_ADDR != 0x16B00000 && plat.can_map DLOAD_MODE_ADDR SZ_4K) = true
    rw [h1]; decide
  · intro a
    simp only [TCSR_BASE, SZ_4K, DLOAD_MODE_ADDR]
    omega

/-- C10 at the debug build with every mapping granted, booted with `enable = 1`. -/
theorem init_complete_write_trace_witness :
    (boot 1).enable ≠ 0 ∧
    debug_board.can_map TCSR_BASE SZ_4K = true ∧
    (debug_board.CONFIG_MSM_WATCHDOG_DEBUG = true →
      debug_board.can_map DLOAD_MODE_ADDR SZ_4K = true) ∧
    (∃ s1 : State,
      init_watchdog debug_board (boot 1) = Outcome.done 0 s1 ∧
      writes (emitted (boot 1) s1) =
        (if debug_board.CONFIG_MSM_WATCHDOG_DEBUG then
          [(0xE47B337D, remapped 0x2A03E008), (0xCE14091A, remapped 0x2A03E008 + 4)]
         else []) ++
        [(3, remapped 0x16B00000 + 0x30), (22000, MSM_TMR0_BASE + 0x4C),
         (22000, MSM_TMR0_BASE + 0x5C), (3, MSM_TMR0_BASE + 0x40)] ∧
      map_requests (emitted (boot 1) s1) =
        (if debug_board.CONFIG_MSM_WATCHDOG_DEBUG then [(0x2A03E008, 0x1000)] else []) ++
        [(0x16B00000, 0x1000)] ∧
      s1.tcsr_base = remapped 0x16B00000) ∧
    (∃ s2 : State,
      init_watchdog
        { debug_board with
          can_map := fun phys size => phys != 0x16B00000 && debug_board.can_map phys size }
        (boot 1) = Outcome.done (-ENOMEM) s2) ∧
    (∀ a : Nat, ¬ (TCSR_BASE ≤ a ∧ a < TCSR_BASE + SZ_4K ∧
      DLOAD_MODE_ADDR ≤ a ∧ a < DLOAD_MODE_ADDR + SZ_4K)) :=
  ⟨by decide, rfl, fun _ => rfl,
    init_complete_write_trace debug_board (boot 1) (by decide) rfl (fun _ => rfl)⟩

/-- C6: with `enable` zero, in either build, `init_watchdog` returns 0 and the only
thing it does is log one line: no register write, no mapping request, no work queue
request; the queue, `delay_time` and `tcsr_base` are unchanged. -/
theorem disabled_init_touches_nothing (plat : Platform) (s : State) (h : s.enable = 0) :
    ∃ s1 : State,
      init_watchdog plat s = Outcome.done 0 s1 ∧
      emitted s s1 = [Event.printk KERN_INFO ("MSM Watchdog Not Initialized\n")] ∧
      writes (emitted s s1) = [] ∧
      map_requests (emitted s s1) = [] ∧
      scheduled (emitted s s1) = [] ∧
      s1.pending = s.pending ∧
      s1.delay_time = s.delay_time ∧
      s1.tcsr_base = s.tcsr_base := by
  refine ⟨_, init_watchdog_disabled plat s h, ?_⟩
  rw [emitted_of_trace rfl]
  exact ⟨rfl, rfl, rfl, rfl, rfl, rfl, rfl⟩

/-- C6 at the debug build, booted with `enable = 0`. -/
theorem disabled_init_touches_nothing_witness :
    (boot 0).enable = 0 ∧
    ∃ s1 : State,
      init_watchdog debug_board (boot 0) = Outcome.done 0 s1 ∧
      emitted (boot 0) s1 = [Event.printk KERN_INFO ("MSM Watchdog Not Initialized\n")] ∧
      writes (emitted (boot 0) s1) = [] ∧
      map_requests (emitted (boot 0) s1) = [] ∧
      scheduled (emitted (boot 0) s1) = [] ∧
      s1.pending = (boot 0).pending ∧
      s1.delay_time = (boot 0).delay_time ∧
      s1.tcsr_base = (boot 0).tcsr_base :=
  ⟨rfl, disabled_init_touches_nothing debug_board (boot 0) rfl⟩

/-- C7: with `enable` non-zero, when the mapping request for the register block at
line 97 is made and returns `NULL`, `init_watchdog` returns `-ENOMEM` (-12) and that
request is the last thing it does: no write goes to the timer block (none to bark, bite, enable or
reset strobe), the only writes at all are the two diagnostics markers a debug build
made before the request, nothing is scheduled and `delay_time` is unchanged. -/
theorem failed_mapping_returns_enomem (plat : Platform) (s : State)
    (he : s.enable ≠ 0)
    (hc : Event.ioremap_nocache TCSR_BASE SZ_4K NULL ∈
      emitted s (init_watchdog plat s).state) :
    ∃ s1 : State,
      init_watchdog plat s = Outcome.done (-ENOMEM) s1 ∧
      -ENOMEM = -12 ∧
      (emitted s s1).getLast? = some (Event.ioremap_nocache TCSR_BASE SZ_4K NULL) ∧
      wdt_writes (emitted s s1) = [] ∧
      written_to WDT0_BARK_TIME (emitted s s1) = [] ∧
      written_to WDT0_BITE_TIME (emitted s s1) = [] ∧
      written_to WDT0_EN (emitted s s1) = [] ∧
      written_to WDT0_RST (emitted s s1) = [] ∧
      writes (emitted s s1) =
        (if plat.CONFIG_MSM_WATCHDOG_DEBUG then
          [(DLOAD_MAGIC_WRITE1, remapped DLOAD_MODE_ADDR),
           (DLOAD_MAGIC_WRITE2, remapped DLOAD_MODE_ADDR + 4)]
         else []) ∧
      scheduled (emitted s s1) = [] ∧
      s1.pending = s.pending ∧
      s1.delay_time = s.delay_time := by
  obtain ⟨hm, hl⟩ := init_watchdog_refused_inv he hc
  refine ⟨_, init_watchdog_enomem plat s he hm hl, rfl, ?_⟩
  rw [emitted_of_trace rfl]
  cases plat.CONFIG_MSM_WATCHDOG_DEBUG <;>
    simp [wdt_writes, written_to, writes, scheduled, WDT0_BARK_TIME, WDT0_RST,
      WDT0_BITE_TIME, WDT0_EN, MSM_TMR0_BASE, remapped, IoPtr.add_def, sizeof_unsigned_int]

/-- C7 at the debug build where only the TCSR block cannot be mapped, `enable = 1`. -/
theorem failed_mapping_returns_enomem_witness :
    (boot 1).enable ≠ 0 ∧
    Event.ioremap_nocache TCSR_BASE SZ_4K NULL ∈
      emitted (boot 1) (init_watchdog debug_board_no_tcsr (boot 1)).state ∧
    ∃ s1 : State,
      init_watchdog debug_board_no_tcsr (boot 1) = Outcome.done (-ENOMEM) s1 ∧
      -ENOMEM = -12 ∧
      (emitted (boot 1) s1).getLast? = some (Event.ioremap_nocache TCSR_BASE SZ_4K NULL) ∧
      wdt_writes (emitted (boot 1) s1) = [] ∧
      written_to WDT0_BARK_TIME (emitted (boot 1) s1) = [] ∧
      written_to WDT0_BITE_TIME (emitted (boot 1) s1) = [] ∧
      written_to WDT0_EN (emitted (boot 1) s1) = [] ∧
      written_to WDT0_RST (emitted (boot 1) s1) = [] ∧
      writes (emitted (boot 1) s1) =
        (if debug_board_no_tcsr.CONFIG_MSM_WATCHDOG_DEBUG then
          [(DLOAD_MAGIC_WRITE1, remapped DLOAD_MODE_ADDR),
           (DLOAD_MAGIC_WRITE2, remapped DLOAD_MODE_ADDR + 4)]
         else []) ∧
      scheduled (emitted (boot 1) s1) = [] ∧
      s1.pending = (boot 1).pending ∧
      s1.delay_time = (boot 1).delay_time :=
  ⟨by decide, by decide,
    failed_mapping_returns_enomem debug_board_no_tcsr (boot 1) (by decide) (by decide)⟩

/-- C9: evaluated on a debug build where the diagnostics region cannot be mapped (the
TCSR block can) and `enable = 1`, `init_watchdog` does not return: it faults on the
store of line 90 through the unchecked `NULL`, having written no register and
scheduled no tick. -/
theorem debug_mapping_failure_faults :
    init_watchdog debug_board_no_dload (boot 1) =
      Outcome.oops
        { boot 1 with
          trace := [Event.printk KERN_INFO ("MSM Watchdog Initialized\n"),
            Event.ioremap_nocache DLOAD_MODE_ADDR SZ_4K NULL] } ∧
    debug_board_no_dload.can_map TCSR_BASE SZ_4K = true ∧
    writes (init_watchdog debug_board_no_dload (boot 1)).state.trace = [] ∧
    (init_watchdog debug_board_no_dload (boot 1)).state.pending = [] :=
  ⟨rfl, by decide, rfl, rfl⟩

/-! ## The tick -/

/-- C2: `pet_watchdog` performs exactly one register write, 1 to the reset strobe
(timer base + 0x38), and then one work queue request with delay `delay_time`; so does
one tick fired from a state in which one tick is pending; and for every `N`, from a
state in which one tick is pending with delay `delay_time`, `N` ticks all
run and append exactly `N` strobe writes and no other write (none to bark, bite or
enable), make `N` work queue requests with that delay, leave exactly one tick pending
and leave `delay_time` unchanged. -/
theorem n_ticks_append_n_strobe_writes (N : Nat) (s : State)
    (h : s.pending = [s.delay_time]) :
    (∃ s0 : State, pet_watchdog s = Outcome.done () s0 ∧
      emitted s s0 =
        [Event.writel 1 (MSM_TMR0_BASE + 0x38), Event.schedule_delayed_work s.delay_time] ∧
      s0.pending = s.pending ++ [s.delay_time] ∧ s0.delay_time = s.delay_time) ∧
    (∃ s1 : State, tick s = some (Outcome.done () s1) ∧
      emitted s s1 =
        [Event.writel 1 (MSM_TMR0_BASE + 0x38), Event.schedule_delayed_work s.delay_time] ∧
      s1.pending = [s.delay_time] ∧ s1.delay_time = s.delay_time) ∧
    ∃ sN : State, ticks N s = some sN ∧
      writes (emitted s sN) = List.replicate N (1, MSM_TMR0_BASE + 0x38) ∧
      written_to WDT0_BARK_TIME (emitted s sN) = [] ∧
      written_to WDT0_BITE_TIME (emitted s sN) = [] ∧
      written_to WDT0_EN (emitted s sN) = [] ∧
      scheduled (emitted s sN) = List.replicate N s.delay_time ∧
      sN.pending = [s.delay_time] ∧
      sN.delay_time = s.delay_time := by
  refine ⟨⟨_, pet_watchdog_eq s, ?_, rfl, rfl⟩, ⟨_, tick_armed s h, ?_, h, rfl⟩, _,
    ticks_armed N s h, ?_⟩
  · rw [emitted_of_trace (s := s) rfl]; rfl
  · rw [emitted_of_trace (s := s) rfl]; rfl
  · rw [emitted_of_trace (s := s) rfl]
    have hw := writes_tick_events s.delay_time N
    refine ⟨hw, ?_, ?_, ?_, scheduled_tick_events _ _, h, rfl⟩ <;>
      simp [written_to, hw, WDT0_RST, WDT0_BARK_TIME, WDT0_BITE_TIME, WDT0_EN,
        MSM_TMR0_BASE, IoPtr.add_def]

/-- C2 for three ticks from the state a successful `init_watchdog` leaves. -/
theorem n_ticks_append_n_strobe_writes_witness :
    (init_watchdog plain_board (boot 1)).state.pending =
      [(init_watchdog plain_board (boot 1)).state.delay_time] ∧
    (∃ s0 : State,
      pet_watchdog (init_watchdog plain_board (boot 1)).state = Outcome.done () s0 ∧
      emitted (init_watchdog plain_board (boot 1)).state s0 =
        [Event.writel 1 (MSM_TMR0_BASE + 0x38),
         Event.schedule_delayed_work (init_watchdog plain_board (boot 1)).state.delay_time] ∧
      s0.pending = (init_watchdog plain_board (boot 1)).state.pending ++
        [(init_watchdog plain_board (boot 1)).state.delay_time] ∧
      s0.delay_time = (init_watchdog plain_board (boot 1)).state.delay_time) ∧
    (∃ s1 : State,
      tick (init_watchdog plain_board (boot 1)).state = some (Outcome.done () s1) ∧
      emitted (init_watchdog plain_board (boot 1)).state s1 =
        [Event.writel 1 (MSM_TMR0_BASE + 0x38),
         Event.schedule_delayed_work (init_watchdog plain_board (boot 1)).state.delay_time] ∧
      s1.pending = [(init_watchdog plain_board (boot 1)).state.delay_time] ∧
      s1.delay_time = (init_watchdog plain_board (boot 1)).state.delay_time) ∧
    ∃ sN : State, ticks 3 (init_watchdog plain_board (boot 1)).state = some sN ∧
      writes (emitted (init_watchdog plain_board (boot 1)).state sN) =
        List.replicate 3 (1, MSM_TMR0_BASE + 0x38) ∧
      written_to WDT0_BARK_TIME (emitted (init_watchdog plain_board (boot 1)).state sN) = [] ∧
      written_to WDT0_BITE_TIME (emitted (init_watchdog plain_board (boot 1)).state sN) = [] ∧
      written_to WDT0_EN (emitted (init_watchdog plain_board (boot 1)).state sN) = [] ∧
      scheduled (emitted (init_watchdog plain_board (boot 1)).state sN) =
        List.replicate 3 (init_watchdog plain_board (boot 1)).state.delay_time ∧
      sN.pending = [(init_watchdog plain_board (boot 1)).state.delay_time] ∧
      sN.delay_time = (init_watchdog plain_board (boot 1)).state.delay_time :=
  ⟨rfl, n_ticks_append_n_strobe_writes 3 (init_watchdog plain_board (boot 1)).state rfl⟩

/-- C3: the interval `init_watchdog` converts to jiffies is `PET_DELAY` = 300 ms and the
bark timeout `start_watchdog_timer` programs is 22000 ticks; at 32768 Hz the interval is
strictly shorter than the timeout (300 * 32768 < 22000 * 1000), the timeout is 671
whole milliseconds, and timeout / interval lies strictly between 2.2 and 2.3. -/
theorem pet_interval_shorter_than_bark_timeout :
    PET_DELAY = 300 ∧
    (∀ m2j : Nat → Nat,
      (init_watchdog ⟨false, fun _ _ => true, m2j⟩ (boot 1)).state.delay_time = m2j PET_DELAY) ∧
    (∀ s : State, ∃ s1 : State, start_watchdog_timer s = Outcome.done () s1 ∧
      last_written WDT0_BARK_TIME (emitted s s1) = some 22000) ∧
    PET_DELAY * WDT_HZ < 22000 * 1000 ∧
    22000 * 1000 / WDT_HZ = 671 ∧
    (22 / 10 : ℚ) < (22000 * 1000 / WDT_HZ : ℚ) / PET_DELAY ∧
    (22000 * 1000 / WDT_HZ : ℚ) / PET_DELAY < (23 / 10 : ℚ) := by
  refine ⟨rfl, fun m2j => ?_, fun s => ⟨_, start_watchdog_timer_eq s, ?_⟩, by decide, by decide,
    ?_, ?_⟩
  · rw [init_watchdog_ok _ _ (by decide) rfl (by simp)]; rfl
  · rw [emitted_of_trace (s := s) rfl]
    simp [last_written, written_to, writes, WDT0_BARK_TIME, WDT0_BITE_TIME, WDT0_EN,
      MSM_TMR0_BASE, IoPtr.add_def]
  · norm_num [WDT_HZ, PET_DELAY]
  · norm_num [WDT_HZ, PET_DELAY]

/-! ## Shutdown -/

/-- C4, as stated, fails: after a successful `init_watchdog` (plain build, `enable = 1`)
and the `exit_watchdog` that follows, the tick is still queued (with delay 30 jiffies),
and running it writes the reset strobe once more. -/
theorem exit_leaves_tick_pending :
    ∃ s1 s2 s3 : State,
      init_watchdog plain_board (boot 1) = Outcome.done 0 s1 ∧
      exit_watchdog s1 = Outcome.done () s2 ∧
      s2.pending = [30] ∧ s2.pending ≠ [] ∧
      tick s2 = some (Outcome.done () s3) ∧
      writes (emitted s2 s3) = [(1, WDT0_RST)] :=
  ⟨_, _, _, rfl, rfl, rfl, by decide, rfl, by decide⟩

/-- C4, amended: `exit_watchdog` called after a successful start (an `init_watchdog`
that ran with `enable` non-zero from an empty queue and returned 0) makes no work
queue request and leaves the queue as it was, so the tick scheduled by the start is
still pending, with delay `delay_time`, in the state reached after it returns; from
that state every one of `N` later ticks runs and writes the reset strobe once, and one
tick is still pending afterwards. -/
theorem exit_does_not_cancel_tick (plat : Platform) (s s1 : State) (N : Nat)
    (he : s.enable ≠ 0) (hp : s.pending = [])
    (h0 : init_watchdog plat s = Outcome.done 0 s1) :
    ∃ s2 s3 : State,
      exit_watchdog s1 = Outcome.done () s2 ∧
      scheduled (emitted s1 s2) = [] ∧
      s1.pending = [s1.delay_time] ∧
      s2.pending = s1.pending ∧
      s2.delay_time = s1.delay_time ∧
      ticks N s2 = some s3 ∧
      writes (emitted s2 s3) = List.replicate N (1, MSM_TMR0_BASE + 0x38) ∧
      s3.pending = s1.pending := by
  obtain ⟨hm, hl⟩ := init_watchdog_zero_inv he h0
  rw [init_watchdog_ok plat s he hm hl] at h0
  injection h0 with _ h1
  subst h1
  refine ⟨_, _, exit_watchdog_eq _, ?_, ?_, rfl, rfl, ticks_armed N _ ?_, ?_, rfl⟩
  · rw [emitted_of_trace rfl]; rfl
  · simp [hp]
  · simp [hp]
  · rw [emitted_of_trace rfl]; exact writes_tick_events _ N

/-- C4, amended, on the plain build booted with `enable = 1`, for two later ticks. -/
theorem exit_does_not_cancel_tick_witness :
    (boot 1).enable ≠ 0 ∧ (boot 1).pending = [] ∧
    init_watchdog plain_board (boot 1) =
      Outcome.done 0 (init_watchdog plain_board (boot 1)).state ∧
    ∃ s2 s3 : State,
      exit_watchdog (init_watchdog plain_board (boot 1)).state = Outcome.done () s2 ∧
      scheduled (emitted (init_watchdog plain_board (boot 1)).state s2) = [] ∧
      (init_watchdog plain_board (boot 1)).state.pending =
        [(init_watchdog plain_board (boot 1)).state.delay_time] ∧
      s2.pending = (init_watchdog plain_board (boot 1)).state.pending ∧
      s2.delay_time = (init_watchdog plain_board (boot 1)).state.delay_time ∧
      ticks 2 s2 = some s3 ∧
      writes (emitted s2 s3) = List.replicate 2 (1, MSM_TMR0_BASE + 0x38) ∧
      s3.pending = (init_watchdog plain_board (boot 1)).state.pending :=
  ⟨by decide, rfl, rfl,
    exit_does_not_cancel_tick plain_board (boot 1) _ 2 (by decide) rfl rfl⟩

/-- C5: `exit_watchdog` called after a successful start (an `init_watchdog` that ran
with `enable` non-zero and returned 0) performs exactly one register write, 0 to the
enable register (timer base + 0x40), and makes no mapping request; the values last
written to the bark and bite registers are 22000 before it and 22000 after it, and the
enable register goes from 3 to 0. -/
theorem exit_writes_only_enable_zero (plat : Platform) (s s1 : State)
    (he : s.enable ≠ 0) (h0 : init_watchdog plat s = Outcome.done 0 s1) :
    ∃ s2 : State,
      exit_watchdog s1 = Outcome.done () s2 ∧
      writes (emitted s1 s2) = [(0, MSM_TMR0_BASE + 0x40)] ∧
      map_requests (emitted s1 s2) = [] ∧
      last_written WDT0_BARK_TIME s1.trace = some 22000 ∧
      last_written WDT0_BITE_TIME s1.trace = some 22000 ∧
      last_written WDT0_BARK_TIME s2.trace = some 22000 ∧
      last_written WDT0_BITE_TIME s2.trace = some 22000 ∧
      last_written WDT0_EN s1.trace = some 3 ∧
      last_written WDT0_EN s2.trace = some 0 := by
  obtain ⟨hm, hl⟩ := init_watchdog_zero_inv he h0
  rw [init_watchdog_ok plat s he hm hl] at h0
  injection h0 with _ h1
  subst h1
  refine ⟨_, exit_watchdog_eq _, ?_, ?_, ?_⟩
  · rw [emitted_of_trace rfl]; rfl
  · rw [emitted_of_trace rfl]; rfl
  · refine ⟨last_written_append (l := []) ?_, last_written_append (l := []) ?_,
      (last_written_append_nil ?_).trans (last_written_append (l := []) ?_),
      (last_written_append_nil ?_).trans (last_written_append (l := []) ?_),
      last_written_append (l := []) ?_, last_written_append (l := []) ?_⟩ <;>
    cases plat.CONFIG_MSM_WATCHDOG_DEBUG <;>
      simp [written_to, writes, WDT0_BARK_TIME, WDT0_BITE_TIME, WDT0_EN, MSM_TMR0_BASE,
        remapped, IoPtr.add_def]

/-- C5 on the debug build with every mapping granted, booted with `enable = 1`. -/
theorem exit_writes_only_enable_zero_witness :
    (boot 1).enable ≠ 0 ∧
    init_watchdog debug_board (boot 1) =
      Outcome.done 0 (init_watchdog debug_board (boot 1)).state ∧
    ∃ s2 : State,
      exit_watchdog (init_watchdog debug_board (boot 1)).state = Outcome.done () s2 ∧
      writes (emitted (init_watchdog debug_board (boot 1)).state s2) =
        [(0, MSM_TMR0_BASE + 0x40)] ∧
      map_requests (emitted (init_watchdog debug_board (boot 1)).state s2) = [] ∧
      last_written WDT0_BARK_TIME (init_watchdog debug_board (boot 1)).state.trace =
        some 22000 ∧
      last_written WDT0_BITE_TIME (init_watchdog debug_board (boot 1)).state.trace =
        some 22000 ∧
      last_written WDT0_BARK_TIME s2.trace = some 22000 ∧
      last_written WDT0_BITE_TIME s2.trace = some 22000 ∧
      last_written WDT0_EN (init_watchdog debug_board (boot 1)).state.trace = some 3 ∧
      last_written WDT0_EN s2.trace = some 0 :=
  ⟨by decide, rfl, exit_writes_only_enable_zero debug_board (boot 1) _ (by decide) rfl⟩

/-- C8, as stated, fails: booted with `enable = 0`, `init_watchdog` returns 0 and the
`exit_watchdog` that follows still writes a register, 0 to the enable register. -/
theorem exit_after_disabled_init_writes :
    ∃ s1 s2 : State,
      init_watchdog plain_board (boot 0) = Outcome.done 0 s1 ∧
      exit_watchdog s1 = Outcome.done () s2 ∧
      writes (emitted s1 s2) = [(0, WDT0_EN)] ∧
      writes (emitted s1 s2) ≠ [] :=
  ⟨_, _, rfl, rfl, by decide, by decide⟩

/-- C8, amended: if `init_watchdog` ran with `enable` zero, it wrote no register, and a
subsequent `exit_watchdog` completes and performs exactly one register write, 0 to the
enable register (timer base + 0x40); across the whole start/stop lifecycle that is the
only write, no mapping is requested, no tick is scheduled, and the queue and
`delay_time` are unchanged. -/
theorem exit_after_disabled_init_only_clears_enable (plat : Platform) (s : State)
    (h : s.enable = 0) :
    ∃ s1 s2 : State,
      init_watchdog plat s = Outcome.done 0 s1 ∧
      exit_watchdog s1 = Outcome.done () s2 ∧
      writes (emitted s s1) = [] ∧
      writes (emitted s1 s2) = [(0, MSM_TMR0_BASE + 0x40)] ∧
      writes (emitted s s2) = [(0, MSM_TMR0_BASE + 0x40)] ∧
      map_requests (emitted s s2) = [] ∧
      scheduled (emitted s s2) = [] ∧
      s2.pending = s.pending ∧
      s2.delay_time = s.delay_time := by
  have h2 : ∀ s0 : State, emitted s
      { s0 with trace := s.trace ++
          [Event.printk KERN_INFO ("MSM Watchdog Not Initialized\n")] ++
          [Event.writel 0 WDT0_EN,
           Event.printk KERN_INFO ("MSM Watchdog Exit - Deactivated\n")] } =
      [Event.printk KERN_INFO ("MSM Watchdog Not Initialized\n"), Event.writel 0 WDT0_EN,
       Event.printk KERN_INFO ("MSM Watchdog Exit - Deactivated\n")] :=
    fun s0 => emitted_of_trace (by simp)
  refine ⟨_, _, init_watchdog_disabled plat s h, exit_watchdog_eq _, ?_, ?_, ?_, ?_, ?_,
    rfl, rfl⟩
  · rw [emitted_of_trace rfl]; rfl
  · rw [emitted_of_trace rfl]; rfl
  · rw [h2]; rfl
  · rw [h2]; rfl
  · rw [h2]; rfl

/-- C8, amended, on the debug build booted with `enable = 0`. -/
theorem exit_after_disabled_init_only_clears_enable_witness :
    (boot 0).enable = 0 ∧
    ∃ s1 s2 : State,
      init_watchdog debug_board (boot 0) = Outcome.done 0 s1 ∧
      exit_watchdog s1 = Outcome.done () s2 ∧
      writes (emitted (boot 0) s1) = [] ∧
      writes (emitted s1 s2) = [(0, MSM_TMR0_BASE + 0x40)] ∧
      writes (emitted (boot 0) s2) = [(0, MSM_TMR0_BASE + 0x40)] ∧
      map_requests (emitted (boot 0) s2) = [] ∧
      scheduled (emitted (boot 0) s2) = [] ∧
      s2.pending = (boot 0).pending ∧
      s2.delay_time = (boot 0).delay_time :=
  ⟨rfl, exit_after_disabled_init_only_clears_enable debug_board (boot 0) rfl⟩

end MsmWatchdog
